import Mathlib

/-!
Shallow embedding of the shipping-rag-bot repository.

Source files embedded here:
  * src/api/ask.py       — health ping, lazy service initialization, request
    validation schema `Q`, prompt assembly (`build_prompt`) and the `/api/ask`
    flow (`ask`).
  * src/api/ping.py      — root and wildcard ping routes.
  * src/api/sync.py      — GCS upload helper and single-request object listing.
  * src/api/sync/index.py — module-level env check, GCS upload with ACL
    fallback, paginated object listing.

The ingestion-pipeline components (Chunker, Text Extractor) described by the
spec are not present under src/; they are modelled from the spec where a claim
needs them, and each such definition is marked "Modelled from the spec".

External collaborators (OpenAI embedding/chat, Pinecone index, GCS) are
modelled as oracle arguments: each call the code makes consumes the
corresponding `Except`-valued result, and flows additionally report how many
times each external call was issued.
-/

namespace ShippingRag

/-! ### Environment variables -/

/-- A process environment: an association list of variable name / value. -/
abbrev Env := List (String × String)

/-- `os.getenv(k)`: the first binding of `k`, if any. -/
def getenv (env : Env) (k : String) : Option String :=
  match env with
  | [] => none
  | (k', v) :: rest => if k' = k then some v else getenv rest k

/-- Python truthiness test `not os.getenv(k)`: unset or empty string. -/
def envFalsy (env : Env) (k : String) : Bool :=
  match getenv env k with
  | none => true
  | some v => v = ""

/-- `REQ_ENV` from src/api/ask.py line 20. -/
def REQ_ENV : List String :=
  ["OPENAI_API_KEY", "PINECONE_API_KEY", "PINECONE_INDEX_NAME", "PINECONE_HOST"]

/-- `missing = [k for k in REQ_ENV if not os.getenv(k)]` (ask.py line 28). -/
def missingEnv (env : Env) : List String :=
  REQ_ENV.filter (envFalsy env)

/-- Python `repr` of a list of strings, as interpolated by
`f"Missing env: {missing}"`. -/
def pyStrListRepr (l : List String) : String :=
  "[" ++ String.intercalate ", " (l.map (fun s => "\x27" ++ s ++ "\x27")) ++ "]"

/-- `get_services` (ask.py lines 26–45): raise HTTPException 503 when any
required variable is unset/empty, or when the Pinecone index handle fails to
initialize (oracle `indexInit`); otherwise hand back the service handles.
The error carries `(status, detail)`. -/
def get_services (env : Env) (indexInit : Except String Unit) :
    Except (Nat × String) Unit :=
  if missingEnv env ≠ [] then
    .error (503, "Missing env: " ++ pyStrListRepr (missingEnv env))
  else
    match indexInit with
    | .error ename => .error (503, "Pinecone error: " ++ ename)
    | .ok _ => .ok ()

/-- Module-level body of src/api/ask.py: it defines the app, routes and
constants but performs no configuration check, so importing the module (and
hence starting the service) succeeds for every environment. -/
def ask_module_init (_env : Env) : Except String Unit := .ok ()

/-- Module-level body of src/api/sync/index.py (lines 11–18): resolving
`BUCKET_NAME` and `CREDS_JSON_STR` and raising `RuntimeError` at import time
when either is missing. -/
def sync_index_module_init (env : Env) : Except String Unit :=
  if (envFalsy env "GCS_BUCKET" && envFalsy env "GCS_BUCKET_NAME") then
    .error "Missing env: GCS_BUCKET or GCS_BUCKET_NAME"
  else if (envFalsy env "GOOGLE_APPLICATION_CREDENTIALS_JSON" &&
      envFalsy env "GOOGLE_CREDENTIALS") then
    .error "Missing env: GOOGLE_APPLICATION_CREDENTIALS_JSON or GOOGLE_CREDENTIALS"
  else .ok ()

/-- The routes src/api/sync/index.py registers on its app. -/
inductive SyncIndexRoute where
  | home
  | upload
  | list
deriving DecidableEq

/-- Route resolution of the sync service (src/api/sync/index.py): the
module body runs before any route exists, so when it raises `RuntimeError`
at import time no app object is created and no path is served — the health
route `/` included; when the import succeeds, `GET /` is `home`, `POST /`
is `upload_file_to_gcs` and `GET /list` is `list_files`. -/
def sync_index_route (env : Env) (method path : String) :
    Option SyncIndexRoute :=
  match sync_index_module_init env with
  | .error _ => none
  | .ok _ =>
    if method = "GET" && path = "/" then some .home
    else if method = "POST" && path = "/" then some .upload
    else if method = "GET" && path = "/list" then some .list
    else none

/-- `ping` (ask.py lines 15–17): `PlainTextResponse("ok")`, HTTP 200. -/
def ping : Nat × String := (200, "ok")

/-! ### Ping application (src/api/ping.py) -/

/-- `ping_root` (ping.py lines 9–11). -/
def ping_root : Nat × String := (200, "ok")

/-- `ping_wildcard` (ping.py lines 14–17): returns "ok" whatever the path is. -/
def ping_wildcard (_path : String) : Nat × String := (200, "ok")

/-- Route resolution of the ping app: the exact route `/` is matched first,
any other path falls through to the catch-all `/{path:path}` route, so every
GET request is handled. -/
def ping_app (path : String) : Option (Nat × String) :=
  if path = "/" then some ping_root else some (ping_wildcard path)

/-! ### Request validation (pydantic model `Q`, ask.py lines 48–51) -/

/-- A raw (pre-validation) ask request body; absent fields are `none`. -/
structure RawQ where
  query : Option String
  top_k : Option Int
  max_tokens : Option Int
deriving DecidableEq

/-- A validated ask request. -/
structure QVal where
  query : String
  top_k : Int
  max_tokens : Int
deriving DecidableEq

/-- Pydantic validation of `Q`: `query: str = Field(..., min_length=1)`,
`top_k: int = Field(8, ge=1, le=50)`, `max_tokens: int = Field(600, ge=64,
le=2000)`. Missing optional fields take their defaults; out-of-range values
are rejected (FastAPI then answers 422 before the handler runs). -/
def validateQ (raw : RawQ) : Option QVal :=
  match raw.query with
  | none => none
  | some q =>
    if q.length < 1 then none
    else
      let k := raw.top_k.getD 8
      let mt := raw.max_tokens.getD 600
      if 1 ≤ k ∧ k ≤ 50 ∧ 64 ≤ mt ∧ mt ≤ 2000 then
        some ⟨q, k, mt⟩
      else none

/-! ### Matches, prompt assembly and the ask flow (ask.py lines 54–120) -/

/-- The metadata dict of a Pinecone match, with the keys the code reads. -/
structure Metadata where
  source : Option String
  file : Option String
  id : Option String
  text : Option String
  page : Option String
deriving DecidableEq

/-- A Pinecone query match as the code reads it (`m.get(...)`). A missing
metadata dict is `none` (the code's `m.get("metadata", {}) or {}`). -/
structure QMatch where
  id : Option String
  score : Option Int
  metadata : Option Metadata
deriving DecidableEq

/-- Python `a or b` on optional strings: `None` and `""` are falsy. -/
def pyOrStr (a b : Option String) : Option String :=
  match a with
  | some s => if s = "" then b else some s
  | none => b

/-- The empty metadata dict `{}`. -/
def emptyMetadata : Metadata := ⟨none, none, none, none, none⟩

/-- `md = m.get("metadata", {}) or {}` (ask.py line 61). -/
def mdOf (m : QMatch) : Metadata := m.metadata.getD emptyMetadata

/-- `src = md.get("source") or md.get("file") or md.get("id") or ""`
(ask.py line 62). -/
def srcLabel (m : QMatch) : String :=
  (pyOrStr (mdOf m).source (pyOrStr (mdOf m).file (mdOf m).id)).getD ""

/-- `txt = md.get("text") or ""` (ask.py line 63). -/
def txtOf (m : QMatch) : String :=
  (pyOrStr (mdOf m).text none).getD ""

/-- One context block `f"[{i}] {src}\n{txt}"` (ask.py line 64). -/
def ctxBlock (i : Nat) (m : QMatch) : String :=
  "[" ++ toString i ++ "] " ++ srcLabel m ++ "\n" ++ txtOf m

/-- The enumerated context blocks, numbered from 1 in list order
(ask.py lines 59–64). -/
def ctxBlocks (ms : List QMatch) : List String :=
  ms.enum.map (fun p => ctxBlock (p.1 + 1) p.2)

/-- The fixed prompt header (ask.py lines 65–68). -/
def promptHeader : String :=
  "당신은 해운 시황 분석 보조원이다. 제공된 컨텍스트 범위에서만 한국어로 답하라. " ++
  "단정할 수 없으면 \x27자료 없음\x27이라 답하라. 각 주장 뒤에 [번호]로 출처를 표기하라.\n\n"

/-- `build_prompt` (ask.py lines 58–69). -/
def build_prompt (question : String) (ms : List QMatch) : String :=
  promptHeader ++ "질문:\n" ++ question ++ "\n\n컨텍스트:\n" ++
    String.intercalate "\n\n---\n\n" (ctxBlocks ms)

/-- One entry of the `sources` payload (ask.py lines 104–112). -/
structure SourceItem where
  score : Int
  id : Option String
  source : Option String
  page : Option String
  text : Option String
deriving DecidableEq

/-- `sources.append({...})` (ask.py lines 106–112): `score` defaults to 0,
`source` is the falsy-or chain over metadata, `page`/`text` pass through. -/
def source_item (m : QMatch) : SourceItem :=
  { score := m.score.getD 0
    id := m.id
    source := pyOrStr (mdOf m).source (pyOrStr (mdOf m).file (mdOf m).id)
    page := (mdOf m).page
    text := (mdOf m).text }

/-- The JSON response of the ask endpoint, by shape. `success` is the 200
`{"answer", "sources"}` payload; `httpError` is FastAPI's `{"detail"}`
rendering of an `HTTPException`; `serverError` is the 500
`{"error", "trace"}` payload of the catch-all handler (the `trace` value, a
formatted traceback, is environment-dependent and not modelled);
`validationError` is FastAPI's 422 for a body that fails `Q` validation. -/
inductive AskResponse where
  | success (answer : String) (sources : List SourceItem)
  | httpError (status : Nat) (detail : String)
  | serverError (errMsg : String)
  | validationError
deriving DecidableEq

/-- HTTP status of each response shape. -/
def AskResponse.status : AskResponse → Nat
  | .success _ _ => 200
  | .httpError s _ => s
  | .serverError _ => 500
  | .validationError => 422

/-- Top-level keys of the JSON payload of each response shape. -/
def AskResponse.jsonKeys : AskResponse → List String
  | .success _ _ => ["answer", "sources"]
  | .httpError _ _ => ["detail"]
  | .serverError _ => ["error", "trace"]
  | .validationError => ["detail"]

/-- How many times the flow issued each external call. -/
structure CallCounts where
  embed : Nat
  query : Nat
  chat : Nat
deriving DecidableEq

/-- The `ask` handler body (ask.py lines 73–120) on a validated request.
Each external call consumes its oracle: `embedR` the embedding call,
`queryR` the index query (its `ms or []` normalization folded into the
list), `chatR` the chat-completion call. Any `Except.error` models the
Python exception the SDK raises, caught by the catch-all `except` into a 500
response; an `HTTPException` from `get_services` is re-raised as-is. -/
def ask (env : Env) (indexInit : Except String Unit) (_body : QVal)
    (embedR : Except String (List Int))
    (queryR : Except String (List QMatch))
    (chatR : Except String String) : AskResponse × CallCounts :=
  match get_services env indexInit with
  | .error (s, d) => (.httpError s d, ⟨0, 0, 0⟩)
  | .ok _ =>
    match embedR with
    | .error e => (.serverError e, ⟨1, 0, 0⟩)
    | .ok _qv =>
      match queryR with
      | .error e => (.serverError e, ⟨1, 1, 0⟩)
      | .ok ms =>
        if ms.isEmpty then
          (.success "관련 자료 없음" [], ⟨1, 1, 0⟩)
        else
          match chatR with
          | .error e => (.serverError e, ⟨1, 1, 1⟩)
          | .ok answer => (.success answer (ms.map source_item), ⟨1, 1, 1⟩)

/-- The full `/api/ask` endpoint: FastAPI validates the body against `Q`
before the handler runs; an invalid body is answered 422 with no external
call made. -/
def ask_endpoint (env : Env) (indexInit : Except String Unit) (raw : RawQ)
    (embedR : Except String (List Int))
    (queryR : Except String (List QMatch))
    (chatR : Except String String) : AskResponse × CallCounts :=
  match validateQ raw with
  | none => (.validationError, ⟨0, 0, 0⟩)
  | some body => ask env indexInit body embedR queryR chatR

/-- The external Vector Index's query contract (spec §6): the index returns
the `top_k` most relevant records of its ranking, in the ranking's own order.
`ranking` is the index's full descending-relevance ordering of its records. -/
def index_query (ranking : List QMatch) (top_k : Nat) : List QMatch :=
  ranking.take top_k

/-! ### Chunker

Modelled from the spec (§4.2): the repository's text chunker is not present
under src/. The spec's algorithm: cursor `i` from 0; at each step take the
substring `[i, min(i+S, len))`, trim surrounding whitespace, emit if
non-empty; advance the cursor to `i + S - O`; repeat until the cursor
reaches the end of the text. Text is a list of characters. -/

/-- Whitespace as trimmed by the chunker. -/
def isWS (c : Char) : Bool := c.isWhitespace

/-- Trim surrounding whitespace (Python `str.strip()`). -/
def strip (l : List Char) : List Char :=
  (l.dropWhile isWS).rdropWhile isWS

/-- Modelled from the spec: one step of the chunker loop at cursor `i`.
Guarded on `O < S` (the spec's precondition; without it the loop would not
make progress). -/
def chunk_from (S O : Nat) (text : List Char) (i : Nat) : List (List Char) :=
  if _h : O < S ∧ i < text.length then
    if strip ((text.drop i).take S) = [] then chunk_from S O text (i + (S - O))
    else strip ((text.drop i).take S) :: chunk_from S O text (i + (S - O))
  else []
termination_by text.length - i
decreasing_by all_goals omega

/-- Modelled from the spec: the chunker, starting the cursor at 0. -/
def chunk (S O : Nat) (text : List Char) : List (List Char) :=
  chunk_from S O text 0

/-! ### Text Extractor

Modelled from the spec (§4.1): the repository's text extractor is not
present under src/. Bytes are naturals < 256. -/

/-- A UTF-8 continuation byte. -/
def isCont (b : Nat) : Bool := 0x80 ≤ b && b ≤ 0xBF

/-- The Unicode replacement character emitted for undecodable sequences. -/
def replChar : Char := Char.ofNat 0xFFFD

/-- Modelled from the spec: one step of lossy UTF-8 decoding at lead byte
`b` with the following bytes `rest`. A valid 1–4 byte sequence is consumed
whole and decodes to its code point; an invalid lead or missing/invalid
continuation emits the replacement character, consumes only the lead byte
and resumes at the next byte. Returns the decoded character and the
remaining bytes. -/
def utf8Step (b : Nat) (rest : List Nat) : Char × List Nat :=
  if b < 0x80 then (Char.ofNat b, rest)
  else if 0xC2 ≤ b && b ≤ 0xDF then
    match rest with
    | c1 :: r2 =>
      if isCont c1 then (Char.ofNat ((b - 0xC0) * 0x40 + (c1 - 0x80)), r2)
      else (replChar, rest)
    | [] => (replChar, [])
  else if 0xE0 ≤ b && b ≤ 0xEF then
    match rest with
    | c1 :: c2 :: r3 =>
      if isCont c1 && isCont c2 then
        (Char.ofNat ((b - 0xE0) * 0x1000 + (c1 - 0x80) * 0x40 + (c2 - 0x80)), r3)
      else (replChar, rest)
    | _ => (replChar, rest)
  else if 0xF0 ≤ b && b ≤ 0xF4 then
    match rest with
    | c1 :: c2 :: c3 :: r4 =>
      if isCont c1 && isCont c2 && isCont c3 then
        (Char.ofNat ((b - 0xF0) * 0x40000 + (c1 - 0x80) * 0x1000 +
            (c2 - 0x80) * 0x40 + (c3 - 0x80)), r4)
      else (replChar, rest)
    | _ => (replChar, rest)
  else (replChar, rest)

/-- A decode step never lengthens the remaining input. -/
theorem utf8Step_length (b : Nat) (rest : List Nat) :
    (utf8Step b rest).2.length ≤ rest.length := by
  rcases rest with _ | ⟨c1, _ | ⟨c2, _ | ⟨c3, r4⟩⟩⟩ <;>
    (simp only [utf8Step] <;> split_ifs <;> simp <;> try omega)

/-- Modelled from the spec: lossy UTF-8 decoding — "decode bytes as UTF-8,
replacing/ignoring undecodable sequences (never fails on malformed
encoding)". Total by construction: each step consumes at least the lead
byte. -/
def utf8DecodeLossy : List Nat → List Char
  | [] => []
  | b :: rest => (utf8Step b rest).1 :: utf8DecodeLossy (utf8Step b rest).2
termination_by bs => bs.length
decreasing_by
  simp
  have := utf8Step_length b rest
  omega

/-- Decoding never produces more characters than there were bytes: every
emitted character consumes at least one input byte. -/
theorem utf8DecodeLossy_length (bs : List Nat) :
    (utf8DecodeLossy bs).length ≤ bs.length := by
  induction bs using utf8DecodeLossy.induct with
  | case1 => simp [utf8DecodeLossy]
  | case2 b rest ih =>
    rw [utf8DecodeLossy]
    have := utf8Step_length b rest
    simp
    omega

/-- The ASCII bytes of "%PDF", the header every well-formed PDF starts with. -/
def pdfHeaderBytes : List Nat := [0x25, 0x50, 0x44, 0x46]

/-- Modelled from the spec: PDF parsing — "parse the PDF structure and
concatenate, in page order, the text extracted from each page". Parsing of
the binary format is modelled as: bytes beginning with the `%PDF` header are
well-formed and yield the decoded page text; anything else (including empty
input) is malformed and yields `none`. -/
def parsePdf (bs : List Nat) : Option (List Char) :=
  if bs.take 4 = pdfHeaderBytes then some (utf8DecodeLossy (bs.drop 4))
  else none

/-- Modelled from the spec: the Text Extractor's MIME dispatch —
`text/plain` decodes lossily, `application/pdf` degrades extraction failures
to the empty string, any other MIME type yields the empty string. -/
def extract_text (mime : String) (bs : List Nat) : List Char :=
  if mime = "text/plain" then utf8DecodeLossy bs
  else if mime = "application/pdf" then (parsePdf bs).getD []
  else []

/-! ### GCS sync service (src/api/sync/index.py and src/api/sync.py)

The GCS API is an oracle: each `.execute()` consumes an `Except`-valued
result. The datetime-formatting helpers `_to_iso_utc` and `_to_sgt`
(sync/index.py lines 35–44) only re-format timestamp strings; Python
`datetime` is not modelled, so they are passed as function parameters —
every theorem below holds for all of them. -/

/-- `_public_url` (sync/index.py lines 46–47). -/
def public_url (bucket objectName : String) : String :=
  "https://storage.googleapis.com/" ++ bucket ++ "/" ++ objectName

/-- The GCS response to a successful `objects().insert(...)`, with the keys
the code reads. -/
structure GcsObjectResp where
  name : Option String
  contentType : Option String
  size : Option Nat
  updated : Option String
deriving DecidableEq

/-- Python `f(x) if x else None` for a string-valued `x`. -/
def pyTimeOpt (f : String → String) : Option String → Option String
  | some u => if u = "" then none else some (f u)
  | none => none

/-- A stored GCS object as returned by `objects().list`, with the keys the
code reads (`it.get("name", "")` etc.). -/
structure GcsItem where
  name : String
  size : Option Nat
  contentType : Option String
  updated : Option String
deriving DecidableEq

/-- The dict returned by `create_and_upload_object` (sync/index.py
lines 63–69). -/
structure UploadInfo where
  name : Option String
  mimeType : Option String
  size : Nat
  updated : Option String
  url : String
deriving DecidableEq

/-- The return dict of `create_and_upload_object` built from a successful
insert response (sync/index.py lines 63–69). -/
def upload_info (bucket : String) (toUtc : String → String)
    (filename : String) (resp : GcsObjectResp) : UploadInfo :=
  { name := resp.name
    mimeType := resp.contentType
    size := resp.size.getD 0
    updated := pyTimeOpt toUtc resp.updated
    url := public_url bucket ("user-uploads/" ++ filename) }

/-- `create_and_upload_object` (sync/index.py lines 49–69): try
`objects().insert` with `predefinedAcl="publicRead"` (oracle `ins1`); on any
exception retry the insert without the ACL (oracle `ins2`); if that also
fails raise `HTTPException(500, "GCS 업로드 실패: ...")`. The second
component counts how many insert calls were issued. -/
def create_and_upload_object (bucket : String) (toUtc : String → String)
    (filename : String) (ins1 ins2 : Except String GcsObjectResp) :
    Except (Nat × String) UploadInfo × Nat :=
  match ins1 with
  | .ok resp => (.ok (upload_info bucket toUtc filename resp), 1)
  | .error _ =>
    match ins2 with
    | .ok resp => (.ok (upload_info bucket toUtc filename resp), 2)
    | .error e2 => (.error (500, "GCS 업로드 실패: " ++ e2), 2)

/-- The JSON response of the sync upload endpoint. -/
inductive SyncUploadResponse where
  | success (filename : String) (info : UploadInfo)
  | errorResp (status : Nat) (message : String)
deriving DecidableEq

/-- `upload_file_to_gcs` (sync/index.py lines 104–117): 200 Success on an
uploaded file, the `HTTPException`'s status and detail otherwise. -/
def upload_file_to_gcs (bucket : String) (toUtc : String → String)
    (filename : String) (ins1 ins2 : Except String GcsObjectResp) :
    SyncUploadResponse × Nat :=
  match create_and_upload_object bucket toUtc filename ins1 ins2 with
  | (.ok info, n) => (.success filename info, n)
  | (.error (s, d), n) => (.errorResp s d, n)

/-- `l.replace(pat, rep, 1)` on character lists: replace the first
occurrence of `pat`, if any. -/
def replaceOnceL (pat rep : List Char) : List Char → List Char
  | [] => []
  | c :: cs =>
    if pat.isPrefixOf (c :: cs) then rep ++ (c :: cs).drop pat.length
    else c :: replaceOnceL pat rep cs

/-- `s.replace(pat, rep, 1)` on strings. -/
def replaceOnce (pat rep s : String) : String :=
  ⟨replaceOnceL pat.toList rep.toList s.toList⟩

/-- One output record of `list_objects_in_gcs` (sync/index.py lines 82–89). -/
structure ListedObject where
  name : String
  size_bytes : Nat
  mime_type : Option String
  updated_utc : Option String
  updated_sgt : Option String
  public_url : String
deriving DecidableEq

/-- `s.endswith(suf)` on strings, via their character lists. -/
def strEndsWith (s suf : String) : Bool :=
  suf.toList.isSuffixOf s.toList

/-- The loop body of `list_objects_in_gcs` for one item (sync/index.py
lines 77–89): skip items with empty names or names ending in `/`, otherwise
emit the record. -/
def proc_item (bucket : String) (toUtc toSgt : String → String)
    (it : GcsItem) : Option ListedObject :=
  if it.name = "" || strEndsWith it.name "/" then none
  else some
    { name := replaceOnce "user-uploads/" "" it.name
      size_bytes := it.size.getD 0
      mime_type := it.contentType
      updated_utc := pyTimeOpt toUtc it.updated
      updated_sgt := pyTimeOpt toSgt it.updated
      public_url := public_url bucket it.name }

/-- `list_objects_in_gcs` (sync/index.py lines 71–91): the GCS listing is a
sequence of pages; the `while req is not None` loop processes one page per
iteration and follows `list_next` until no request remains, so it runs over
every page. -/
def list_objects_in_gcs (bucket : String) (toUtc toSgt : String → String) :
    List (List GcsItem) → List ListedObject
  | [] => []
  | page :: rest =>
    page.filterMap (proc_item bucket toUtc toSgt) ++
      list_objects_in_gcs bucket toUtc toSgt rest

/-- One output record of sync.py's `list_files_in_gcs` (lines 138–144). -/
structure SyncListedFile where
  name : String
  size_bytes : Option Nat
  mime_type : Option String
  last_modified : Option String
  url : String
deriving DecidableEq

/-- The loop body of sync.py's `list_files_in_gcs` for one item
(sync.py lines 129–144): strip the folder from the name once, skip the
item whose cleaned name is empty, otherwise emit the record. -/
def proc_item_sync (bucket : String) (it : GcsItem) : Option SyncListedFile :=
  let clean_name := replaceOnce "user-uploads/" "" it.name
  if clean_name = "" then none
  else some
    { name := clean_name
      size_bytes := it.size
      mime_type := it.contentType
      last_modified := it.updated
      url := public_url bucket it.name }

/-- `list_files_in_gcs` (sync.py lines 96–153): a single
`objects().list(..., maxResults=100)` request is executed and its `items`
processed; no continuation token is followed, so only the first page of the
listing is consulted. -/
def list_files_in_gcs (bucket : String) (pages : List (List GcsItem)) :
    List SyncListedFile :=
  (pages.headD []).filterMap (proc_item_sync bucket)

/-! ## Concrete inputs shared by witnesses and counterexamples -/

/-- An environment providing all four variables `REQ_ENV` requires. -/
def env0 : Env :=
  [("OPENAI_API_KEY", "sk-test"), ("PINECONE_API_KEY", "pc-test"),
   ("PINECONE_INDEX_NAME", "idx"), ("PINECONE_HOST", "https://idx.example")]

/-- A match whose metadata carries a source label and a chunk text. -/
def mkMatch (n : String) (sc : Int) : QMatch :=
  ⟨some n, some sc, some ⟨some ("gcs://doc#" ++ n), none, none, some ("text-" ++ n), none⟩⟩

/-- Five indexed matches with pairwise distinct scores, in the index's
descending-score ranking order. -/
def ranking5 : List QMatch :=
  [mkMatch "a" 90, mkMatch "b" 80, mkMatch "c" 70, mkMatch "d" 60, mkMatch "e" 50]

/-! ## Theorems -/

/-- C10: for every GET request to the ping application, whatever the request
path (root or any nested path), the response is HTTP 200 with the plain-text
body "ok". -/
theorem C10_ping_any_path_ok (path : String) :
    ping_app path = some (200, "ok") := by
  unfold ping_app ping_root ping_wildcard
  split <;> rfl

/-- C1: when the services initialize and the embedding call succeeds but the
vector-index query returns zero matches, the ask flow answers HTTP 200 with
the designated no-relevant-material sentinel and an empty source list — the
model is never called and no error shape is returned. -/
theorem C1_zero_matches_sentinel (env : Env) (ii : Except String Unit)
    (body : QVal) (embedR : Except String (List Int))
    (chatR : Except String String) (v : List Int)
    (hs : get_services env ii = .ok ()) (he : embedR = .ok v) :
    ask env ii body embedR (.ok []) chatR =
      (.success "관련 자료 없음" [], ⟨1, 1, 0⟩) ∧
    (AskResponse.success "관련 자료 없음" []).status = 200 := by
  unfold ask
  rw [hs, he]
  exact ⟨rfl, rfl⟩

/-- Witness for C1 at a concrete environment, request and oracle results. -/
theorem C1_zero_matches_sentinel_witness :
    ask env0 (.ok ()) ⟨"운임 전망?", 8, 600⟩ (.ok [1, 2]) (.ok []) (.ok "unused") =
      (.success "관련 자료 없음" [], ⟨1, 1, 0⟩) ∧
    (AskResponse.success "관련 자료 없음" []).status = 200 :=
  C1_zero_matches_sentinel env0 (.ok ()) ⟨"운임 전망?", 8, 600⟩ (.ok [1, 2])
    (.ok "unused") [1, 2] (by rfl) rfl

/-- C2: the context blocks of the assembled prompt enumerate the matches in
exactly the order given, numbered consecutively from 1, each block being
`[i] <source-label>` followed by a newline and the chunk text; there are as
many blocks as matches, and for an index ranking of 5 records queried with
`top_k = 3` the prompt has exactly 3 blocks, in the ranking's order
(`build_prompt` renders precisely these blocks around the fixed header). -/
theorem C2_prompt_enumeration (ms : List QMatch) :
    (∀ i : Nat, (ctxBlocks ms).get? i =
        (ms.get? i).map (fun m =>
          "[" ++ toString (i + 1) ++ "] " ++ srcLabel m ++ "\n" ++ txtOf m)) ∧
    (ctxBlocks ms).length = ms.length ∧
    (∀ ranking : List QMatch, ranking.length = 5 →
      (ctxBlocks (index_query ranking 3)).length = 3 ∧
      ∀ i : Nat, i < 3 → (index_query ranking 3).get? i = ranking.get? i) := by
  refine ⟨?_, ?_, ?_⟩
  · intro i
    simp [ctxBlocks, List.getElem?_map, List.getElem?_enum, Option.map_map, ctxBlock]
    cases ms[i]? <;> rfl
  · simp [ctxBlocks]
  · intro ranking h5
    refine ⟨?_, ?_⟩
    · simp [ctxBlocks, index_query, h5]
    · intro i hi
      simp [index_query, List.getElem?_take_of_lt, hi]

/-- Witness for C2 at the concrete 5-record ranking with distinct scores. -/
theorem C2_prompt_enumeration_witness :
    ranking5.length = 5 ∧
    ((ctxBlocks (index_query ranking5 3)).length = 3 ∧
      ∀ i : Nat, i < 3 → (index_query ranking5 3).get? i = ranking5.get? i) :=
  ⟨rfl, (C2_prompt_enumeration ranking5).2.2 ranking5 rfl⟩

/-- C6: an ask request validates exactly when its query is present with
length at least 1, its `top_k` (defaulting to 8 when omitted) lies in
[1, 50], and its `max_tokens` (defaulting to 600 when omitted) lies in
[64, 2000]; an invalid body is answered 422 with no external call issued. -/
theorem C6_request_validation (raw : RawQ) (env : Env)
    (ii : Except String Unit) (embedR : Except String (List Int))
    (queryR : Except String (List QMatch)) (chatR : Except String String) :
    ((validateQ raw).isSome ↔
      (∃ q, raw.query = some q ∧ 1 ≤ q.length) ∧
      (∀ k, raw.top_k = some k → 1 ≤ k ∧ k ≤ 50) ∧
      (∀ mt, raw.max_tokens = some mt → 64 ≤ mt ∧ mt ≤ 2000)) ∧
    (∀ v, validateQ raw = some v →
      raw.query = some v.query ∧
      (raw.top_k = none → v.top_k = 8) ∧
      (raw.max_tokens = none → v.max_tokens = 600) ∧
      (∀ k, raw.top_k = some k → v.top_k = k) ∧
      (∀ mt, raw.max_tokens = some mt → v.max_tokens = mt)) ∧
    (validateQ raw = none →
      ask_endpoint env ii raw embedR queryR chatR = (.validationError, ⟨0, 0, 0⟩)) := by
  obtain ⟨q?, k?, mt?⟩ := raw
  refine ⟨?_, ?_, ?_⟩
  · cases q? with
    | none => simp [validateQ]
    | some q =>
      cases k? <;> cases mt? <;>
        (simp only [validateQ, Option.getD_some, Option.getD_none]
         split_ifs <;> simp_all <;> omega)
  · intro v hv
    cases q? <;> cases k? <;> cases mt? <;>
      simp only [validateQ, Option.getD_some, Option.getD_none] at hv <;>
      (try split_ifs at hv) <;>
      (try exact Option.noConfusion hv) <;>
      (injection hv with hv2) <;> subst hv2 <;> simp
  · intro hnone
    simp [ask_endpoint, hnone]

/-- Witness for C6: a concrete in-range body validates with the defaults
filled in, and a concrete out-of-range body is answered 422 with zero
external calls. -/
theorem C6_request_validation_witness :
    validateQ ⟨some "덕적도", none, none⟩ = some ⟨"덕적도", 8, 600⟩ ∧
    validateQ ⟨some "덕적도", some 0, none⟩ = none ∧
    ask_endpoint env0 (.ok ()) ⟨some "덕적도", some 0, none⟩ (.ok [1]) (.ok [])
      (.ok "x") = (.validationError, ⟨0, 0, 0⟩) := by
  refine ⟨by rfl, by rfl, ?_⟩
  exact (C6_request_validation ⟨some "덕적도", some 0, none⟩ env0 (.ok ()) (.ok [1])
    (.ok []) (.ok "x")).2.2 (by rfl)

/-- A successful GCS insert response, used as a concrete oracle result. -/
def resp0 : GcsObjectResp :=
  ⟨some "user-uploads/report.pdf", some "application/pdf", some 1024, none⟩

/-- C4 counterexample: in `create_and_upload_object` (sync/index.py), when
the first `objects().insert` (with `predefinedAcl="publicRead"`) fails, the
insert IS retried — a second attempt without the ACL is issued — and when
that retry succeeds no server error surfaces at all. This refutes the claim
that an upstream failure during sync always surfaces a server error and that
the failing call is never retried internally. -/
theorem C4_counterexample :
    create_and_upload_object "bkt" id "report.pdf" (.error "acl denied")
      (.ok resp0) = (.ok (upload_info "bkt" id "report.pdf" resp0), 2) := by
  rfl

/-- C4 (amended): in the ask flow, a failure of the embedding call, the
index query or the model call surfaces as an HTTP 500 response whose JSON
shape (`{"error","trace"}`) differs from the answer payload
(`{"answer","sources"}`), with each external call issued at most once — no
internal retry. During sync upload, a failed GCS insert is retried exactly
once without the public-read ACL; only if that second attempt also fails
does the operation surface HTTP 500 with a short diagnostic, and a
successful first attempt issues no second call. -/
theorem C4_failure_semantics (env : Env) (ii : Except String Unit)
    (body : QVal) (e : String) (v : List Int) (ms : List QMatch)
    (hs : get_services env ii = .ok ()) :
    (∀ queryR chatR, ask env ii body (.error e) queryR chatR =
        (.serverError e, ⟨1, 0, 0⟩)) ∧
    (∀ chatR, ask env ii body (.ok v) (.error e) chatR =
        (.serverError e, ⟨1, 1, 0⟩)) ∧
    (ms ≠ [] → ask env ii body (.ok v) (.ok ms) (.error e) =
        (.serverError e, ⟨1, 1, 1⟩)) ∧
    (AskResponse.serverError e).status = 500 ∧
    (∀ a srcs, (AskResponse.serverError e).jsonKeys ≠
        (AskResponse.success a srcs).jsonKeys) ∧
    (∀ bucket toUtc fn e1 e2,
      create_and_upload_object bucket toUtc fn (.error e1) (.error e2) =
          (.error (500, "GCS 업로드 실패: " ++ e2), 2) ∧
      upload_file_to_gcs bucket toUtc fn (.error e1) (.error e2) =
          (.errorResp 500 ("GCS 업로드 실패: " ++ e2), 2)) ∧
    (∀ bucket toUtc fn r1 i2,
      (create_and_upload_object bucket toUtc fn (.ok r1) i2).2 = 1) := by
  refine ⟨?_, ?_, ?_, rfl, ?_, ?_, ?_⟩
  · intro queryR chatR
    unfold ask; rw [hs]
  · intro chatR
    unfold ask; rw [hs]
  · intro hne
    unfold ask; rw [hs]
    cases ms with
    | nil => exact absurd rfl hne
    | cons h t => rfl
  · intro a srcs
    simp [AskResponse.jsonKeys]
  · intro bucket toUtc fn e1 e2
    exact ⟨rfl, rfl⟩
  · intro bucket toUtc fn r1 i2
    rfl

/-- Witness for C4's amended theorem: each of the three ask-flow failure
points at a concrete environment and concrete oracle results. -/
theorem C4_failure_semantics_witness :
    ask env0 (.ok ()) ⟨"질문", 8, 600⟩ (.error "boom") (.ok []) (.ok "u") =
        (.serverError "boom", ⟨1, 0, 0⟩) ∧
    ask env0 (.ok ()) ⟨"질문", 8, 600⟩ (.ok [1]) (.error "boom") (.ok "u") =
        (.serverError "boom", ⟨1, 1, 0⟩) ∧
    ask env0 (.ok ()) ⟨"질문", 8, 600⟩ (.ok [1]) (.ok [mkMatch "a" 90])
        (.error "boom") = (.serverError "boom", ⟨1, 1, 1⟩) ∧
    create_and_upload_object "bkt" id "f.txt" (.error "e1") (.error "e2") =
        (.error (500, "GCS 업로드 실패: " ++ "e2"), 2) := by
  obtain ⟨h1, h2, h3, -, -, h6, -⟩ :=
    C4_failure_semantics env0 (.ok ()) ⟨"질문", 8, 600⟩ "boom" [1]
      [mkMatch "a" 90] (by rfl)
  exact ⟨h1 (.ok []) (.ok "u"), h2 (.ok "u"), h3 (by simp),
    (h6 "bkt" id "f.txt" "e1" "e2").1⟩

/-- C5 counterexample: with every required credential missing (the empty
environment), the ask service's module body still initializes successfully —
startup is NOT fatal — while the feature path answers each request 503 and
the health route answers 200. This refutes the claim that a service with
missing configuration fails fatally at startup. -/
theorem C5_counterexample :
    missingEnv [] = REQ_ENV ∧
    ask_module_init [] = .ok () ∧
    get_services [] (.ok ()) =
      .error (503, "Missing env: " ++ pyStrListRepr REQ_ENV) ∧
    ping = (200, "ok") := by
  exact ⟨rfl, rfl, by rfl, rfl⟩

/-- C5 (amended): when a required credential or identifier is missing, the
ask service (src/api/ask.py) starts anyway: its module body performs no
configuration check, its feature path rejects each request with HTTP 503
naming the missing variables, and its health route answers 200 independently
of feature-path readiness. The sync service (src/api/sync/index.py) instead
fails fatally at import time — with the bucket error when both bucket
variables are missing, and with the credentials error when a bucket variable
is present but both credentials variables are missing — and a service with
a failed import serves nothing at all, its health route included; when its
configuration is complete the import succeeds and its routes are served. -/
theorem C5_config_error_handling (env : Env) :
    (∀ ii, missingEnv env ≠ [] →
      ask_module_init env = .ok () ∧
      get_services env ii =
        .error (503, "Missing env: " ++ pyStrListRepr (missingEnv env))) ∧
    ping = (200, "ok") ∧
    ((envFalsy env "GCS_BUCKET" && envFalsy env "GCS_BUCKET_NAME") = true →
      sync_index_module_init env =
        .error "Missing env: GCS_BUCKET or GCS_BUCKET_NAME") ∧
    ((envFalsy env "GCS_BUCKET" && envFalsy env "GCS_BUCKET_NAME") = false →
      (envFalsy env "GOOGLE_APPLICATION_CREDENTIALS_JSON" &&
        envFalsy env "GOOGLE_CREDENTIALS") = true →
      sync_index_module_init env =
        .error "Missing env: GOOGLE_APPLICATION_CREDENTIALS_JSON or GOOGLE_CREDENTIALS") ∧
    (∀ e, sync_index_module_init env = .error e →
      ∀ method path, sync_index_route env method path = none) ∧
    (sync_index_module_init env = .ok () →
      sync_index_route env "GET" "/" = some .home) := by
  refine ⟨?_, rfl, ?_, ?_, ?_, ?_⟩
  · intro ii hmiss
    refine ⟨rfl, ?_⟩
    unfold get_services
    rw [if_pos hmiss]
  · intro h
    unfold sync_index_module_init
    rw [if_pos h]
  · intro h1 h2
    unfold sync_index_module_init
    rw [if_neg (by simp [h1]), if_pos h2]
  · intro e he method path
    simp [sync_index_route, he]
  · intro h
    simp [sync_index_route, h]

/-- Witness for C5's amended theorem: the empty environment (everything
missing — ask starts anyway and 503s, sync import fails on the bucket and
serves nothing), an environment with only the bucket set (sync import fails
on the credentials), and a complete sync environment (import succeeds and
the health route is served). -/
theorem C5_config_error_handling_witness :
    ask_module_init [] = .ok () ∧
    get_services [] (.ok ()) =
      .error (503, "Missing env: " ++ pyStrListRepr (missingEnv [])) ∧
    sync_index_module_init [] =
      .error "Missing env: GCS_BUCKET or GCS_BUCKET_NAME" ∧
    sync_index_route [] "GET" "/" = none ∧
    sync_index_module_init [("GCS_BUCKET", "b")] =
      .error "Missing env: GOOGLE_APPLICATION_CREDENTIALS_JSON or GOOGLE_CREDENTIALS" ∧
    sync_index_route [("GCS_BUCKET", "b"), ("GOOGLE_CREDENTIALS", "{}")]
      "GET" "/" = some .home := by
  have t0 := C5_config_error_handling []
  have t1 := C5_config_error_handling [("GCS_BUCKET", "b")]
  have t2 := C5_config_error_handling
    [("GCS_BUCKET", "b"), ("GOOGLE_CREDENTIALS", "{}")]
  obtain ⟨ha, hg⟩ := t0.1 (.ok ()) (by decide)
  have hb := t0.2.2.1 (by decide)
  have hn := t0.2.2.2.2.1 _ hb "GET" "/"
  have hc := t1.2.2.2.1 (by decide) (by decide)
  have hh := t2.2.2.2.2.2 (by rfl)
  exact ⟨ha, hg, hb, hn, hc, hh⟩

/-- A first-page stored object. -/
def itemA : GcsItem := ⟨"user-uploads/alpha.txt", some 10, some "text/plain", none⟩

/-- A second-page stored object. -/
def itemB : GcsItem := ⟨"user-uploads/beta.txt", some 20, some "text/plain", none⟩

/-- A two-page GCS listing with one object per page. -/
def pages2 : List (List GcsItem) := [[itemA], [itemB]]

/-- C7 counterexample: sync.py's `list_files_in_gcs` issues a single
request and never follows the continuation token, so with a two-page
listing the valid second-page object `itemB` is absent from the returned
list. This refutes the claim that the listing operation loops over the
pagination token and returns the items of every page. -/
theorem C7_counterexample :
    itemB ∈ pages2.flatten ∧
    (proc_item_sync "bkt" itemB).isSome = true ∧
    ∀ f ∈ list_files_in_gcs "bkt" pages2, f.name ≠ "beta.txt" := by
  decide

/-- C7 (amended): `list_objects_in_gcs` (sync/index.py) follows the
continuation token in a loop until no request remains, so its result is the
processing of the concatenation of all pages and every valid item of every
page appears in it; `list_files_in_gcs` (sync.py) instead issues a single
request, so its result depends only on the first page of the listing. -/
theorem C7_listing_pagination (bucket : String) (toUtc toSgt : String → String)
    (pages : List (List GcsItem)) :
    list_objects_in_gcs bucket toUtc toSgt pages =
      (pages.flatten).filterMap (proc_item bucket toUtc toSgt) ∧
    (∀ it ∈ pages.flatten, ∀ o, proc_item bucket toUtc toSgt it = some o →
      o ∈ list_objects_in_gcs bucket toUtc toSgt pages) ∧
    (∀ page rest, list_files_in_gcs bucket (page :: rest) =
      list_files_in_gcs bucket [page]) := by
  have hjoin : list_objects_in_gcs bucket toUtc toSgt pages =
      (pages.flatten).filterMap (proc_item bucket toUtc toSgt) := by
    induction pages with
    | nil => rfl
    | cons page rest ih =>
      simp [list_objects_in_gcs, List.filterMap_append, ih]
  refine ⟨hjoin, ?_, ?_⟩
  · intro it hit o ho
    rw [hjoin]
    exact List.mem_filterMap.mpr ⟨it, hit, ho⟩
  · intro page rest
    rfl

/-- The record `list_objects_in_gcs` emits for `itemB`. -/
def objB : ListedObject :=
  ⟨"beta.txt", 20, some "text/plain", none, none,
    "https://storage.googleapis.com/bkt/user-uploads/beta.txt"⟩

/-- Witness for C7's amended theorem: the second-page object's record does
appear in the all-pages listing of sync/index.py. -/
theorem C7_listing_pagination_witness :
    itemB ∈ pages2.flatten ∧
    proc_item "bkt" id id itemB = some objB ∧
    objB ∈ list_objects_in_gcs "bkt" id id pages2 := by
  have hmem : itemB ∈ pages2.flatten := by simp [pages2]
  have hproc : proc_item "bkt" id id itemB = some objB := by rfl
  exact ⟨hmem, hproc,
    (C7_listing_pagination "bkt" id id pages2).2.1 itemB hmem objB hproc⟩

/-! ### Chunker lemmas -/

/-- The head surviving `dropWhile` fails the predicate. -/
theorem dropWhile_head_false {α : Type} (p : α → Bool) :
    ∀ (l : List α) (x : α) (xs : List α), l.dropWhile p = x :: xs →
      p x = false := by
  intro l
  induction l with
  | nil => intro x xs h; simp at h
  | cons c cs ih =>
    intro x xs h
    by_cases hc : p c
    · rw [List.dropWhile_cons_of_pos hc] at h
      exact ih x xs h
    · rw [List.dropWhile_cons_of_neg hc] at h
      cases h
      simpa using hc

/-- An element failing the predicate survives `dropWhile`. -/
theorem mem_dropWhile_of_mem {α : Type} (p : α → Bool) :
    ∀ (l : List α) (a : α), a ∈ l → p a = false → a ∈ l.dropWhile p := by
  intro l
  induction l with
  | nil => simp
  | cons c cs ih =>
    intro a ha hpa
    by_cases hc : p c
    · rw [List.dropWhile_cons_of_pos hc]
      rcases List.mem_cons.mp ha with h | h
      · rw [h] at hpa; rw [hc] at hpa; cases hpa
      · exact ih a h hpa
    · rw [List.dropWhile_cons_of_neg hc]
      exact ha

/-- A non-whitespace element of a list survives `strip`. -/
theorem mem_strip_of_mem (l : List Char) (a : Char) (ha : a ∈ l)
    (hpa : isWS a = false) : a ∈ strip l := by
  have h1 : a ∈ l.dropWhile isWS := mem_dropWhile_of_mem isWS l a ha hpa
  have h2 : a ∈ (l.dropWhile isWS).reverse := List.mem_reverse.mpr h1
  have h3 : a ∈ (l.dropWhile isWS).reverse.dropWhile isWS :=
    mem_dropWhile_of_mem isWS _ a h2 hpa
  unfold strip List.rdropWhile
  exact List.mem_reverse.mpr h3

/-- `strip` only removes elements. -/
theorem strip_subset (l : List Char) : strip l ⊆ l := by
  intro a ha
  unfold strip List.rdropWhile at ha
  rw [List.mem_reverse] at ha
  have h1 : a ∈ (l.dropWhile isWS).reverse :=
    (List.dropWhile_sublist isWS).subset ha
  rw [List.mem_reverse] at h1
  exact (List.dropWhile_sublist isWS).subset h1

/-- Stripping an all-whitespace list yields the empty list. -/
theorem strip_eq_nil_of_all_ws (l : List Char) (h : ∀ a ∈ l, isWS a) :
    strip l = [] := by
  unfold strip
  rw [List.dropWhile_eq_nil_iff.mpr h]
  rfl

/-- A stripped list has no leading whitespace left. -/
theorem strip_dropWhile (l : List Char) :
    (strip l).dropWhile isWS = strip l := by
  cases h : strip l with
  | nil => simp
  | cons x xs =>
    obtain ⟨t, ht⟩ := List.rdropWhile_prefix isWS (l.dropWhile isWS)
    have hsl : strip l ++ t = l.dropWhile isWS := ht
    rw [h] at hsl
    have hx : isWS x = false :=
      dropWhile_head_false isWS l x (xs ++ t) (by rw [← hsl]; rfl)
    rw [List.dropWhile_cons_of_neg (by simp [hx])]

/-- `strip` is idempotent. -/
theorem strip_idem (l : List Char) : strip (strip l) = strip l := by
  show ((strip l).dropWhile isWS).rdropWhile isWS = strip l
  rw [strip_dropWhile]
  exact List.rdropWhile_idempotent isWS _

/-- Fuelled coverage: a non-whitespace character at position `j ≥ i` of the
text appears in some chunk of the run starting at cursor `i`. -/
theorem chunk_from_covers (S O : Nat) (text : List Char) (hOS : O < S)
    (j : Nat) (hj : j < text.length)
    (hws : isWS (text.get ⟨j, hj⟩) = false) :
    ∀ n i, text.length - i ≤ n → i ≤ j →
      ∃ c ∈ chunk_from S O text i, text.get ⟨j, hj⟩ ∈ c := by
  intro n
  induction n with
  | zero =>
    intro i hn hij
    omega
  | succ n ih =>
    intro i hn hij
    have hi : i < text.length := by omega
    rw [chunk_from, dif_pos ⟨hOS, hi⟩]
    by_cases hcase : j < i + S
    · have hlen : j - i < ((text.drop i).take S).length := by
        simp [List.length_take, List.length_drop]
        omega
      have heq : ((text.drop i).take S).get ⟨j - i, hlen⟩ = text.get ⟨j, hj⟩ := by
        simp only [List.get_eq_getElem]
        rw [List.getElem_take, List.getElem_drop]
        congr 1
        omega
      have hwmem : text.get ⟨j, hj⟩ ∈ (text.drop i).take S := by
        rw [← heq]
        exact List.get_mem _ _ hlen
      have hp : text.get ⟨j, hj⟩ ∈ strip ((text.drop i).take S) :=
        mem_strip_of_mem _ _ hwmem hws
      have hne : strip ((text.drop i).take S) ≠ [] := by
        intro h0
        rw [h0] at hp
        simp at hp
      rw [if_neg hne]
      exact ⟨_, List.mem_cons_self _ _, hp⟩
    · obtain ⟨c, hc, hm⟩ := ih (i + (S - O)) (by omega) (by omega)
      by_cases hp : strip ((text.drop i).take S) = []
      · rw [if_pos hp]
        exact ⟨c, hc, hm⟩
      · rw [if_neg hp]
        exact ⟨c, List.mem_cons_of_mem _ hc, hm⟩

/-- Fuelled vacuity: on all-whitespace text every window strips to nothing,
so no chunk is emitted. -/
theorem chunk_from_all_ws (S O : Nat) (text : List Char)
    (hws : ∀ a ∈ text, isWS a) :
    ∀ n i, text.length - i ≤ n → chunk_from S O text i = [] := by
  intro n
  induction n with
  | zero =>
    intro i hn
    rw [chunk_from, dif_neg (by omega)]
  | succ n ih =>
    intro i hn
    by_cases hcond : O < S ∧ i < text.length
    · rw [chunk_from, dif_pos hcond]
      have hpp : strip ((text.drop i).take S) = [] :=
        strip_eq_nil_of_all_ws _ (fun a ha =>
          hws a (List.drop_subset i text (List.take_subset S (text.drop i) ha)))
      rw [if_pos hpp]
      exact ih (i + (S - O)) (by omega)
    · rw [chunk_from, dif_neg hcond]

/-- Fuelled invariant of emitted chunks: each is non-empty and already
stripped. -/
theorem chunk_from_emitted (S O : Nat) (text : List Char) :
    ∀ n i c, text.length - i ≤ n → c ∈ chunk_from S O text i →
      c ≠ [] ∧ strip c = c := by
  intro n
  induction n with
  | zero =>
    intro i c hn hc
    rw [chunk_from, dif_neg (by omega)] at hc
    simp at hc
  | succ n ih =>
    intro i c hn hc
    by_cases hcond : O < S ∧ i < text.length
    · rw [chunk_from, dif_pos hcond] at hc
      by_cases hp : strip ((text.drop i).take S) = []
      · rw [if_pos hp] at hc
        exact ih _ c (by omega) hc
      · rw [if_neg hp] at hc
        rcases List.mem_cons.mp hc with h | h
        · rw [h]
          exact ⟨hp, strip_idem _⟩
        · exact ih _ c (by omega) h
    · rw [chunk_from, dif_neg hcond] at hc
      simp at hc

/-- C3: for every chunk size `S` and overlap `O` with `O < S` the chunker's
cursor strictly advances at each step (so the traversal terminates — the
function is total by well-founded recursion on the remaining text), every
non-whitespace character of the input text belongs to at least one emitted
chunk, and an all-whitespace (in particular empty) input yields zero
chunks. -/
theorem C3_chunker_total_coverage (S O : Nat) (text : List Char)
    (hOS : O < S) :
    (∀ i : Nat, i < i + (S - O)) ∧
    (∀ j (hj : j < text.length), isWS (text.get ⟨j, hj⟩) = false →
      ∃ c ∈ chunk S O text, text.get ⟨j, hj⟩ ∈ c) ∧
    ((∀ a ∈ text, isWS a) → chunk S O text = []) := by
  refine ⟨fun i => by omega, ?_, ?_⟩
  · intro j hj hws
    exact chunk_from_covers S O text hOS j hj hws text.length 0
      (by omega) (by omega)
  · intro h
    exact chunk_from_all_ws S O text h text.length 0 (by omega)

/-- Witness for C3 at `S = 5`, `O = 2`: the character at position 0 of
`"ab "` is covered by an emitted chunk, and the all-whitespace text `"  "`
chunks to nothing. -/
theorem C3_chunker_total_coverage_witness :
    (2 : Nat) < 5 ∧
    (∃ c ∈ chunk 5 2 ['a', 'b', ' '], 'a' ∈ c) ∧
    chunk 5 2 [' ', ' '] = [] := by
  have h1 := (C3_chunker_total_coverage 5 2 ['a', 'b', ' '] (by decide)).2.1
    0 (by decide) (by decide)
  have h2 := (C3_chunker_total_coverage 5 2 [' ', ' '] (by decide)).2.2
    (by decide)
  exact ⟨by decide, h1, h2⟩

/-- C8 counterexample: with `S = 2`, `O = 1`, the chunker emits the chunk
`"ab"` from the text `"ab"`; its length 2 is at most `S`, yet re-chunking it
with the same parameters yields `["ab", "b"]`, not `["ab"]` — the cursor
re-enters the chunk at position `S - O` whenever its length exceeds
`S - O`. This refutes the claimed idempotence for emitted chunks of length
at most `S`. -/
theorem C8_counterexample :
    ['a', 'b'] ∈ chunk 2 1 ['a', 'b'] ∧
    List.length ['a', 'b'] ≤ 2 ∧
    chunk 2 1 ['a', 'b'] ≠ [['a', 'b']] := by
  refine ⟨?_, by decide, ?_⟩
  · simp [chunk, chunk_from, strip, isWS, List.rdropWhile]
  · simp [chunk, chunk_from, strip, isWS, List.rdropWhile]

/-- C8 (amended): re-chunking a single emitted chunk with the same `S, O`
(`O < S`) yields exactly that chunk unchanged provided its length is at most
`S - O` (one cursor step clears it); emitted chunks of length greater than
`S - O` are re-split by the overlapping cursor. -/
theorem C8_rechunk_fixed (S O : Nat) (text c : List Char) (hOS : O < S)
    (hc : c ∈ chunk S O text) (hlen : c.length ≤ S - O) :
    chunk S O c = [c] := by
  obtain ⟨hne, hstrip⟩ :=
    chunk_from_emitted S O text text.length 0 c (by omega) hc
  have hcl : 0 < c.length := List.length_pos.mpr hne
  unfold chunk
  rw [chunk_from, dif_pos ⟨hOS, hcl⟩]
  have htake : (c.drop 0).take S = c := by
    simp [List.take_of_length_le (by omega : c.length ≤ S)]
  rw [htake, hstrip, if_neg hne]
  rw [chunk_from, dif_neg (by omega : ¬(O < S ∧ 0 + (S - O) < c.length))]

/-- Witness for C8's amended theorem: the chunk `"ab"` emitted from `"ab"`
with `S = 3`, `O = 1` has length `2 ≤ S - O` and re-chunks to itself. -/
theorem C8_rechunk_fixed_witness :
    ['a', 'b'] ∈ chunk 3 1 ['a', 'b'] ∧
    List.length ['a', 'b'] ≤ 3 - 1 ∧
    chunk 3 1 ['a', 'b'] = [['a', 'b']] := by
  have hmem : ['a', 'b'] ∈ chunk 3 1 ['a', 'b'] := by
    simp [chunk, chunk_from, strip, isWS, List.rdropWhile]
  exact ⟨hmem, by decide,
    C8_rechunk_fixed 3 1 ['a', 'b'] ['a', 'b'] (by decide) hmem (by decide)⟩

/-- C9: the Text Extractor is total on its inputs — malformed (in
particular empty) PDF bytes yield the empty string rather than raising,
`text/plain` bytes always decode via the lossy UTF-8 decoder (a total
function whose output never exceeds the input length — it replaces rather
than fails on undecodable sequences), and any other MIME type yields the
empty string. -/
theorem C9_extractor_total (mime : String) (bs : List Nat) :
    (parsePdf bs = none → extract_text "application/pdf" bs = []) ∧
    extract_text "application/pdf" [] = [] ∧
    extract_text "text/plain" bs = utf8DecodeLossy bs ∧
    (utf8DecodeLossy bs).length ≤ bs.length ∧
    (mime ≠ "text/plain" → mime ≠ "application/pdf" →
      extract_text mime bs = []) := by
  refine ⟨?_, by rfl, by rfl, utf8DecodeLossy_length bs, ?_⟩
  · intro h
    simp [extract_text, h]
  · intro h1 h2
    simp [extract_text, h1, h2]

/-- Witness for C9: concrete malformed PDF bytes and a concrete foreign
MIME type both extract to the empty string. -/
theorem C9_extractor_total_witness :
    parsePdf [255] = none ∧
    extract_text "application/pdf" [255] = [] ∧
    extract_text "image/png" [1, 2] = [] := by
  refine ⟨by rfl, (C9_extractor_total "image/png" [255]).1 (by rfl), ?_⟩
  exact (C9_extractor_total "image/png" [1, 2]).2.2.2.2 (by decide) (by decide)

end ShippingRag
